import Mathlib

/-!
Verification of the Agentic Day Planner enrichment routines.

This file shallowly embeds the pure logic of `tools.py` (POI ranking,
news filtering, weather summarising) and the input validation of
`agents.py` (`plan_day_workflow`).  Network calls (geocoding, forecast,
RSS, Overpass) are modelled by passing their decoded results in as
arguments; the haversine distance (`_km_distance`, transcendental over
floats) is modelled as an abstract function `ℚ → ℚ → ℚ` supplied by the
caller; RFC-2822 publish-date parsing (`parsedate_to_datetime`) is
modelled by storing the parsed UTC day directly (`none` standing for an
absent or unparseable date).  Machine floats are modelled by `ℚ`;
Python numeric string formatting is modelled by `qstr`/`fmtOneDec`.
Python truthiness (`or` on possibly-zero / possibly-empty values) is
modelled explicitly by the `py`-prefixed helpers.
-/

/-- `startsWithL hay needle` : `needle` is a prefix of `hay` (over char lists).
Models the per-position test of Python's `in` operator. -/
def startsWithL : List Char → List Char → Bool
  | _, [] => true
  | [], _ :: _ => false
  | h :: hs, n :: ns => h == n && startsWithL hs ns

/-- `containsSubL hay needle` : `needle` occurs contiguously in `hay`. -/
def containsSubL : List Char → List Char → Bool
  | [], needle => needle.isEmpty
  | h :: t, needle => startsWithL (h :: t) needle || containsSubL t needle

/-- `strContains hay needle` models Python's `needle in hay` substring test. -/
def strContains (hay needle : String) : Bool :=
  containsSubL hay.toList needle.toList

/-- Python `str.lower` (character-wise; the data flowing through the
lowercased fields is ASCII). -/
def strLower (s : String) : String :=
  String.mk (s.toList.map Char.toLower)

/-- Python `str.strip`: drop leading and trailing whitespace. -/
def trimL (s : String) : String :=
  String.mk
    (((s.toList.dropWhile Char.isWhitespace).reverse.dropWhile
      Char.isWhitespace).reverse)

/-- Splitting on a one-character separator; `cur` is the reversed
current token. -/
def splitCharGo (sep : Char) : List Char → List Char → List String
  | [], cur => [String.mk cur.reverse]
  | c :: rest, cur =>
    if c == sep then String.mk cur.reverse :: splitCharGo sep rest []
    else splitCharGo sep rest (c :: cur)

/-- Python `s.split(",")` for the one-character separator used by the
keyword parser. -/
def splitChar (sep : Char) (s : String) : List String :=
  splitCharGo sep s.toList []

/-- Python truthiness on an optional string: `None` and `""` are falsy. -/
def pyTruthyS : Option String → Option String
  | some s => if s = "" then none else some s
  | none => none

/-- Python `a or b` on optional strings (left operand used when truthy). -/
def pyOrStr (a b : Option String) : Option String :=
  match pyTruthyS a with
  | some s => some s
  | none => b

/-- Python `a or b` on optional rationals: `None` and `0.0` are falsy,
so a present-but-zero left operand falls through to `b`. -/
def pyOrQ (a b : Option ℚ) : Option ℚ :=
  match a with
  | some v => if v = 0 then b else some v
  | none => b

/-- `dict.get(k)` on a string-keyed dict modelled as an association list. -/
def dictGetS (d : List (String × String)) (k : String) : Option String :=
  (d.find? (fun kv => kv.1 == k)).map (fun kv => kv.2)

/-- Rendering of a rational number, modelling Python's `str` on the
integral JSON numbers that actually flow through the formatted fields. -/
def qstr (q : ℚ) : String :=
  if q.den = 1 then toString q.num else toString q.num ++ "/" ++ toString q.den

/-- One-decimal-place rendering, modelling the `:.1f` format applied to
the (non-negative) distances. -/
def fmtOneDec (q : ℚ) : String :=
  let n : Int := round (q * 10)
  toString (n / 10) ++ "." ++ toString (n % 10)

/-- Zero-padding to two digits, as in `date.isoformat`. -/
def pad2 (n : Nat) : String :=
  if n < 10 then "0" ++ toString n else toString n

/-- Zero-padding to four digits, as in `date.isoformat`. -/
def pad4 (n : Nat) : String :=
  if n < 10 then "000" ++ toString n
  else if n < 100 then "00" ++ toString n
  else if n < 1000 then "0" ++ toString n
  else toString n

/-- A calendar date at day granularity (Python `datetime.date`). -/
structure Day where
  year : Nat
  month : Nat
  dayOfMonth : Nat
deriving DecidableEq

/-- `date.isoformat()`: `YYYY-MM-DD`. -/
def Day.isoformat (t : Day) : String :=
  pad4 t.year ++ "-" ++ pad2 t.month ++ "-" ++ pad2 t.dayOfMonth

/-- One parsed RSS `item` element of the news feed.  `title`,
`description`, `link` and `source_name` carry the `findtext` defaults
already applied (`"Untitled"`, `""`, `""`, `"Local outlet"`).  `pubDay`
is the UTC-normalised day obtained from `parsedate_to_datetime` on the
`pubDate` text; `none` models both an absent/empty `pubDate` and one
that raises `TypeError`/`ValueError` when parsed. -/
structure NewsItem where
  pubDay : Option Day
  title : String
  description : String
  link : String
  source_name : String
deriving DecidableEq

/-- Keyword extraction from the `interests` argument of `get_city_news`:
split on commas, strip, lowercase, drop empty tokens. -/
def parseKeywords (interests : String) : List String :=
  (splitChar ',' interests).filterMap fun t =>
    let s := trimL t
    if s = "" then none else some (strLower s)

/-- The date-based drop test of the `get_city_news` loop: an item is
dropped when its publish date parsed and differs from the target day. -/
def dateDrop (target : Day) (it : NewsItem) : Bool :=
  match it.pubDay with
  | some d => d != target
  | none => false

/-- The keyword hit test: some keyword occurs in the lowercased title or
lowercased description. -/
def kwHit (keywords : List String) (it : NewsItem) : Bool :=
  keywords.any fun kw =>
    strContains (strLower it.title) kw || strContains (strLower it.description) kw

/-- Combined per-item retention test of the news loop. -/
def newsKeep (target : Day) (keywords : List String) (it : NewsItem) : Bool :=
  !(dateDrop target it) && (keywords.isEmpty || kwHit keywords it)

/-- The item-selection loop of `get_city_news` (lines 224-251 of
`tools.py`): date filter, then keyword filter, appending survivors and
breaking as soon as five have been collected.  `acc` is the reversed
list of survivors so far. -/
def newsSelectGo (target : Day) (keywords : List String) :
    List NewsItem → List NewsItem → List NewsItem
  | [], acc => acc.reverse
  | it :: rest, acc =>
    if dateDrop target it then newsSelectGo target keywords rest acc
    else if !keywords.isEmpty && !(kwHit keywords it) then
      newsSelectGo target keywords rest acc
    else if (it :: acc).length = 5 then (it :: acc).reverse
    else newsSelectGo target keywords rest (it :: acc)

/-- The items surviving the `get_city_news` filter, in order. -/
def newsSelect (target : Day) (keywords : List String) (items : List NewsItem) :
    List NewsItem :=
  newsSelectGo target keywords items []

/-- Rendering of one surviving news item
(`f"- {title} ({source_name}, {age})\n  {link}"`); the age annotation is
time-dependent (`_format_news_age` reads the clock) and is therefore an
abstract argument. -/
def renderNewsItem (age : NewsItem → String) (it : NewsItem) : String :=
  "- " ++ it.title ++ " (" ++ it.source_name ++ ", " ++ age it ++ ")\n  " ++ it.link

/-- `get_city_news` after feed retrieval and XML parsing: the items are
already decoded, the target day already resolved. -/
def get_city_news_pure (location : String) (target : Day) (interests : Option String)
    (items : List NewsItem) (age : NewsItem → String) : String :=
  if location = "" then "Location not provided for news lookup."
  else
    let keywords := parseKeywords (interests.getD "")
    let filtered := (newsSelect target keywords items).map (renderNewsItem age)
    if filtered.isEmpty then
      let fallback := (items.take 3).map (fun it => it.title)
      "No date-matching headlines found for " ++ location ++ " on " ++
        target.isoformat ++ ".\nSample current stories: " ++
        (if fallback.isEmpty then "N/A" else String.intercalate ", " fallback) ++ "."
    else
      "City news for " ++ location ++ " on " ++ target.isoformat ++ ":\n" ++
        String.intercalate "\n" filtered

/-- Decoded forecast payload: the daily and hourly series requested by
`_fetch_forecast`.  Numeric series are rationals; sunrise/sunset are the
verbatim timestamp strings. -/
structure Forecast where
  temperature_2m_max : List ℚ
  temperature_2m_min : List ℚ
  precipitation_probability_max : List ℚ
  sunrise : List String
  sunset : List String
  temperature_2m : List ℚ
  precipitation_probability : List ℚ
  relative_humidity_2m : List ℚ
deriving DecidableEq

/-- The local `_pick` helper of `get_weather_outlook` on a numeric
series: first element, or `"N/A"`. -/
def pickQ (series : List ℚ) : String :=
  match series with
  | [] => "N/A"
  | x :: _ => qstr x

/-- `_pick` on a string series. -/
def pickS (series : List String) : String :=
  match series with
  | [] => "N/A"
  | x :: _ => x

/-- `precip_risk`: `f"{max(hourly_precip)}%"` when the hourly
precipitation-probability series is non-empty, else the fixed fallback. -/
def precipRisk (f : Forecast) : String :=
  match f.precipitation_probability with
  | [] => "No precipitation data"
  | x :: rest => qstr (rest.foldl max x) ++ "%"

/-- `humidity_snapshot`: midpoint sample of the hourly humidity series. -/
def humiditySnapshot (f : Forecast) : String :=
  if f.relative_humidity_2m.isEmpty then "N/A"
  else qstr (f.relative_humidity_2m.getD (f.relative_humidity_2m.length / 2) 0) ++ "%"

/-- `midday_temp`: midpoint sample of the hourly temperature series. -/
def middayTemp (f : Forecast) : String :=
  if f.temperature_2m.isEmpty then "N/A"
  else qstr (f.temperature_2m.getD (f.temperature_2m.length / 2) 0) ++ "°C"

/-- A geocoding result: latitude, longitude and composed display label. -/
abbrev Geo := ℚ × ℚ × String

/-- `_lookup_coordinates`: an empty location string returns `None`
before any network call; otherwise the (decoded) remote answer is
returned — `none` models an empty `results` array. -/
def lookupCoordinates (location : String) (remote : Option Geo) : Option Geo :=
  if location = "" then none else remote

/-- `get_weather_outlook` after the geocoding and forecast responses are
decoded.  `day_str` is the resolved target day in ISO form and
`timestamp` the generation clock reading, both opaque here. -/
def get_weather_outlook_pure (coordinates : Option Geo) (location : String)
    (day_str timestamp : String) (f : Forecast) : String :=
  match coordinates with
  | none =>
    "Unable to locate coordinates for '" ++ location ++
      "'. Ask the user for a clearer location."
  | some (_, _, pretty_label) =>
    "Weather outlook for " ++ pretty_label ++ " on " ++ day_str ++
      " (generated " ++ timestamp ++ "):\n" ++
    "- Daily range: " ++ pickQ f.temperature_2m_min ++ "°C – " ++
      pickQ f.temperature_2m_max ++ "°C (midday ~ " ++ middayTemp f ++ ")\n" ++
    "- Humidity snapshot: " ++ humiditySnapshot f ++ "\n" ++
    "- Peak precipitation probability: " ++ pickQ f.precipitation_probability_max ++
      "% (hourly max " ++ precipRisk f ++ ")\n" ++
    "- Sunrise at " ++ pickS f.sunrise ++ ", sunset at " ++ pickS f.sunset ++ "\n" ++
    "- Tip: favor indoor plans if precipitation exceeds 40% or humidity stays above 80%."

/-- The fixed `POI_TAGS` table of `tools.py`: (tag key, tag value,
display label), scanned in order, first match wins. -/
def POI_TAGS : List (String × String × String) :=
  [("leisure", "stadium", "Stadium"),
   ("leisure", "pitch", "Sports Pitch"),
   ("leisure", "sports_centre", "Sports Centre"),
   ("amenity", "cinema", "Cinema"),
   ("amenity", "theatre", "Theatre"),
   ("shop", "mall", "Mall"),
   ("leisure", "park", "Park"),
   ("tourism", "attraction", "Attraction"),
   ("amenity", "restaurant", "Restaurant")]

/-- `_tag_label`: first matching `POI_TAGS` entry, else the first truthy
of the amenity/leisure/tourism tags, else `"Point of interest"`. -/
def tagLabel (tags : List (String × String)) : String :=
  match POI_TAGS.find? (fun kvl => dictGetS tags kvl.1 == some kvl.2.1) with
  | some kvl => kvl.2.2
  | none =>
    (pyTruthyS (pyOrStr (dictGetS tags "amenity")
      (pyOrStr (dictGetS tags "leisure") (dictGetS tags "tourism")))).getD
      "Point of interest"

/-- One element of the Overpass `elements` array: its tag dictionary,
optional direct coordinates and optional nested `center` coordinates. -/
structure OsmElement where
  tags : List (String × String)
  lat : Option ℚ
  lon : Option ℚ
  center_lat : Option ℚ
  center_lon : Option ℚ
deriving DecidableEq

/-- One accumulated venue dict of `get_local_spots`. -/
structure Spot where
  name : String
  label : String
  distance : ℚ
  score : ℚ
deriving DecidableEq

/-- The interest-bonus score of `get_local_spots` (lines 302-309 of
`tools.py`), before the final floor at 0: sequential deductions guarded
by a non-empty lowercased interest string. -/
def scoreSpot (interest_lower label : String) (distance : ℚ) : ℚ :=
  if interest_lower = "" then distance
  else
    let s1 := if strContains interest_lower "cricket" &&
        strContains (strLower label) "stadium" then distance - 2 else distance
    let s2 := if strContains interest_lower "movie" &&
        strContains (strLower label) "cinema" then s1 - 3/2 else s1
    let s3 := if (strContains interest_lower "game" ||
        strContains interest_lower "gaming" ||
        strContains interest_lower "mall") && label == "Mall" then s2 - 1 else s2
    s3

/-- The element loop of `get_local_spots` (lines 288-319): skip unnamed
or already-seen names, resolve coordinates through Python `or`
truthiness (direct field, falling through to the nested center), skip
when unresolved, and otherwise emit a scored venue and record the name
as seen.  `dist` abstracts `_km_distance` partially applied to the
origin coordinates. -/
def buildSpotsGo (dist : ℚ → ℚ → ℚ) (interest_lower : String) :
    List OsmElement → List String → List Spot
  | [], _ => []
  | e :: rest, seen =>
    match pyTruthyS (dictGetS e.tags "name") with
    | none => buildSpotsGo dist interest_lower rest seen
    | some name =>
      if name ∈ seen then buildSpotsGo dist interest_lower rest seen
      else
        match pyOrQ e.lat e.center_lat, pyOrQ e.lon e.center_lon with
        | some elat, some elon =>
          let d := dist elat elon
          let label := tagLabel e.tags
          { name := name, label := label, distance := d,
            score := max (scoreSpot interest_lower label d) 0 } ::
            buildSpotsGo dist interest_lower rest (name :: seen)
        | some _, none => buildSpotsGo dist interest_lower rest seen
        | none, _ => buildSpotsGo dist interest_lower rest seen

/-- The venue list accumulated by `get_local_spots`, in feed order. -/
def buildSpots (dist : ℚ → ℚ → ℚ) (interest_lower : String)
    (elements : List OsmElement) : List Spot :=
  buildSpotsGo dist interest_lower elements []

/-- The sort key relation of `spots.sort(key=lambda s: s["score"])`. -/
def spotLE (a b : Spot) : Prop := a.score ≤ b.score

instance : DecidableRel spotLE :=
  fun a b => inferInstanceAs (Decidable (a.score ≤ b.score))

instance : IsTotal Spot spotLE := ⟨fun a b => le_total a.score b.score⟩

instance : IsTrans Spot spotLE := ⟨fun _ _ _ h1 h2 => le_trans h1 h2⟩

/-- CPython's `list.sort` is a stable sort; a stable sort's output is
uniquely determined by the key relation and input order, so it is
modelled by stable insertion sort. -/
def sortSpots (spots : List Spot) : List Spot :=
  List.insertionSort spotLE spots

/-- Rendering of one venue line
(`f"- {name} ({label}) · {distance:.1f} km away"`). -/
def renderSpot (s : Spot) : String :=
  "- " ++ s.name ++ " (" ++ s.label ++ ") · " ++ fmtOneDec s.distance ++ " km away"

/-- The rendered venue lines: sort ascending by score, truncate to 7,
render. -/
def spotLines (spots : List Spot) : List String :=
  ((sortSpots spots).take 7).map renderSpot

/-- `get_local_spots` after the geocode and Overpass responses are
decoded. -/
def get_local_spots_pure (coordinates : Option Geo) (location : String)
    (interest : Option String) (dist : ℚ → ℚ → ℚ)
    (elements : List OsmElement) : String :=
  match coordinates with
  | none => "Unable to locate coordinates for '" ++ location ++ "'."
  | some (_, _, pretty_label) =>
    let interest_lower := strLower (interest.getD "")
    let spots := buildSpots dist interest_lower elements
    if spots.isEmpty then
      "No notable venues were detected within 8km of " ++ pretty_label ++ "."
    else
      let lines :=
        ("Highlighted venues near " ++ pretty_label ++ " (within ~8 km):") ::
          spotLines spots
      let lines2 :=
        if interest_lower ≠ "" then
          lines ++ ["Interest bias applied for: " ++ interest_lower ++ "."]
        else lines
      String.intercalate "\n" lines2

/-- The result dictionary of `plan_day_workflow`.  The four text fields
come from the agent pipeline, which is opaque to this development. -/
structure PlanOutput where
  persona : String
  weather : String
  local_insights : String
  plan : String
  date : String
  commitments : String
  adjustments : String
deriving DecidableEq

/-- The two `ValueError`s raised by `plan_day_workflow`'s input checks. -/
inductive PlanInputError where
  | locationRequired
  | planDateRequired
deriving DecidableEq

/-- `plan_day_workflow` (lines 68-78 and 197-205 of `agents.py`): the
input checks precede everything else; the whole agent pipeline is the
opaque `agents` callback producing (persona, weather, local insights,
plan).  A missing or empty `"location"` value, then an empty plan date,
each raise before the callback is invoked. -/
def plan_day_workflow (user_data : List (String × String)) (plan_date : String)
    (commitments adjustments : Option String)
    (agents : Unit → String × String × String × String) :
    Except PlanInputError PlanOutput :=
  if (dictGetS user_data "location").getD "" = "" then
    .error .locationRequired
  else if plan_date = "" then
    .error .planDateRequired
  else
    let r := agents ()
    .ok { persona := r.1, weather := r.2.1, local_insights := r.2.2.1,
          plan := r.2.2.2, date := plan_date,
          commitments := commitments.getD "",
          adjustments := adjustments.getD "" }

/-- Example target day, 2025-06-01. -/
def exDayTarget : Day := ⟨2025, 6, 1⟩

/-- Example day one day after the target. -/
def exDayAfter : Day := ⟨2025, 6, 2⟩

/-- A news item published one day after the target, with a title that
matches sports-interest keywords. -/
def exLateItem : NewsItem :=
  ⟨some exDayAfter, "Cricket final tonight", "", "", "Local outlet"⟩

/-- A trivial agent pipeline stand-in. -/
def exAgentsRun : Unit → String × String × String × String :=
  fun _ => ("", "", "", "")

/-- Example forecast: hourly temperature `[21, 22, 23]`, hourly
precipitation probability `[10, 90, 20]`, daily precipitation max 40. -/
def exForecastMid : Forecast :=
  ⟨[31], [24], [40], ["06:00"], ["18:30"], [21, 22, 23], [10, 90, 20], [55]⟩

/-- The same forecast with a different daily precipitation max. -/
def exForecastAltDaily : Forecast :=
  { exForecastMid with precipitation_probability_max := [77] }

/-- A stadium POI element; the example distance function sends it to
3.0 km. -/
def exElemStadium : OsmElement :=
  ⟨[("name", "Gachibowli Stadium"), ("leisure", "stadium")],
   some 17, some 78, none, none⟩

/-- A non-bonused POI element; the example distance function sends it
to 2.5 km. -/
def exElemCafe : OsmElement :=
  ⟨[("name", "Cafe Corner"), ("amenity", "restaurant")],
   some 18, some 79, none, none⟩

/-- Example distance function: 3 km for the stadium's latitude, 2.5 km
otherwise. -/
def exDistCricket : ℚ → ℚ → ℚ := fun la _ => if la = 17 then 3 else 5/2

/-- The spot that `buildSpots` produces for `exElemStadium` under
interest `"cricket"`. -/
def exSpotStadium : Spot := ⟨"Gachibowli Stadium", "Stadium", 3, 1⟩

/-- A named element sitting exactly on the equator: direct latitude 0,
direct longitude 5, no nested center. -/
def exEquatorElem : OsmElement :=
  ⟨[("name", "Equator"), ("leisure", "park")], some 0, some 5, none, none⟩

theorem newsSelectGo_eq (t : Day) (k : List String) (items : List NewsItem) :
    ∀ acc : List NewsItem, acc.length < 5 →
      newsSelectGo t k items acc =
        acc.reverse ++ (items.filter (newsKeep t k)).take (5 - acc.length) := by
  induction items with
  | nil => intro acc _; simp [newsSelectGo]
  | cons it rest ih =>
    intro acc hacc
    by_cases hd : dateDrop t it
    · have hk : newsKeep t k it = false := by simp [newsKeep, hd]
      simp only [newsSelectGo, hd, if_true, List.filter_cons, hk]
      exact ih acc hacc
    · by_cases hkw : !k.isEmpty && !(kwHit k it)
      · have hk : newsKeep t k it = false := by
          rcases Bool.and_eq_true _ _ |>.mp hkw with ⟨h1, h2⟩
          simp only [Bool.not_eq_true'] at h1 h2
          simp [newsKeep, hd, h1, h2]
        simp only [newsSelectGo, hd, if_false, hkw, if_true, List.filter_cons, hk]
        exact ih acc hacc
      · have hk : newsKeep t k it = true := by
          have hd' : dateDrop t it = false := by simpa using hd
          cases he : k.isEmpty with
          | true => simp [newsKeep, hd', he]
          | false =>
            cases hh : kwHit k it with
            | true => simp [newsKeep, hd', he, hh]
            | false => exact absurd (by simp [he, hh]) hkw
        have hfilter : (it :: rest).filter (newsKeep t k) =
            it :: rest.filter (newsKeep t k) := by simp [List.filter_cons, hk]
        by_cases h5 : (it :: acc).length = 5
        · have hlen : acc.length = 4 := by simpa using h5
          simp only [newsSelectGo, hd, if_false, hkw, if_true, h5, hfilter]
          rw [hlen]
          simp [List.take_succ_cons]
        · have hlt : (it :: acc).length < 5 := by
            simp only [List.length_cons] at h5 ⊢
            omega
          simp only [newsSelectGo, hd, if_false, hkw, if_true, h5, hfilter]
          rw [ih (it :: acc) hlt]
          have harith : 5 - acc.length = (5 - (it :: acc).length) + 1 := by
            simp only [List.length_cons]
            omega
          rw [harith]
          simp [List.take_succ_cons]

theorem newsSelect_eq (t : Day) (k : List String) (items : List NewsItem) :
    newsSelect t k items =
      ((items.filter fun it => !dateDrop t it).filter
        (fun it => k.isEmpty || kwHit k it)).take 5 := by
  have h := newsSelectGo_eq t k items [] (by norm_num)
  simp only [newsSelect, h, List.reverse_nil, List.nil_append, Nat.sub_zero,
    List.length_nil]
  rw [List.filter_filter]
  congr 1
  apply List.filter_congr
  intro a _
  cases hdd : dateDrop t a <;> simp [newsKeep, hdd, Bool.and_comm]

theorem foldl_max_init_le (l : List ℚ) (x : ℚ) : x ≤ l.foldl max x := by
  induction l generalizing x with
  | nil => exact le_refl x
  | cons y ys ih => exact le_trans (le_max_left x y) (ih (max x y))

theorem foldl_max_le_of_mem (l : List ℚ) (x : ℚ) :
    ∀ y ∈ l, y ≤ l.foldl max x := by
  induction l generalizing x with
  | nil => intro y hy; cases hy
  | cons z zs ih =>
    intro y hy
    rcases List.mem_cons.mp hy with rfl | hy
    · exact le_trans (le_max_right x y) (foldl_max_init_le zs (max x y))
    · exact ih (max x z) y hy

theorem foldl_max_mem (l : List ℚ) (x : ℚ) : l.foldl max x ∈ x :: l := by
  induction l generalizing x with
  | nil => simp
  | cons y ys ih =>
    have h := ih (max x y)
    rcases max_choice x y with hxy | hxy <;>
      · rw [List.foldl_cons]
        rcases List.mem_cons.mp h with he | hm
        · rw [he, hxy]; simp
        · simp [hm]

theorem filter_orderedInsert_score (q : ℚ) (x : Spot) (l : List Spot) :
    (List.orderedInsert spotLE x l).filter (fun s => decide (s.score = q)) =
      if x.score = q then x :: l.filter (fun s => decide (s.score = q))
      else l.filter (fun s => decide (s.score = q)) := by
  induction l with
  | nil =>
    by_cases hq : x.score = q <;> simp [List.orderedInsert, List.filter, hq]
  | cons y ys ih =>
    rw [List.orderedInsert]
    by_cases h : spotLE x y
    · rw [if_pos h]
      by_cases hq : x.score = q <;> simp [List.filter_cons, hq]
    · rw [if_neg h]
      have hlt : y.score < x.score := lt_of_not_le h
      by_cases hq : x.score = q
      · have hy : ¬ (y.score = q) := by
          intro hyq
          exact absurd (show spotLE x y from le_of_eq (hq.trans hyq.symm)) h
        rw [if_pos hq]
        rw [List.filter_cons, if_neg (by simpa using hy)]
        rw [List.filter_cons, if_neg (by simpa using hy)]
        rw [ih, if_pos hq]
      · rw [if_neg hq]
        rw [List.filter_cons, List.filter_cons, ih, if_neg hq]

theorem filter_sortSpots (q : ℚ) (spots : List Spot) :
    (sortSpots spots).filter (fun s => decide (s.score = q)) =
      spots.filter (fun s => decide (s.score = q)) := by
  induction spots with
  | nil => rfl
  | cons x xs ih =>
    have ih' : (List.insertionSort spotLE xs).filter (fun s => decide (s.score = q)) =
        xs.filter (fun s => decide (s.score = q)) := ih
    show (List.orderedInsert spotLE x (List.insertionSort spotLE xs)).filter
        (fun s => decide (s.score = q)) = _
    rw [filter_orderedInsert_score, List.filter_cons]
    by_cases hq : x.score = q
    · rw [if_pos hq, if_pos (by simpa using hq), ih']
    · rw [if_neg hq, if_neg (by simpa using hq), ih']

theorem buildSpotsGo_invariant (dist : ℚ → ℚ → ℚ) (il : String) :
    ∀ (elements : List OsmElement) (seen : List String),
      (∀ s ∈ buildSpotsGo dist il elements seen, s.name ∉ seen) ∧
      ((buildSpotsGo dist il elements seen).map (fun s => s.name)).Nodup := by
  intro elements
  induction elements with
  | nil => intro seen; constructor <;> simp [buildSpotsGo]
  | cons e rest ih =>
    intro seen
    cases hn : pyTruthyS (dictGetS e.tags "name") with
    | none => simpa [buildSpotsGo, hn] using ih seen
    | some name =>
      by_cases hseen : name ∈ seen
      · simpa [buildSpotsGo, hn, hseen] using ih seen
      · cases hla : pyOrQ e.lat e.center_lat with
        | none => simpa [buildSpotsGo, hn, hseen, hla] using ih seen
        | some elat =>
          cases hlo : pyOrQ e.lon e.center_lon with
          | none => simpa [buildSpotsGo, hn, hseen, hla, hlo] using ih seen
          | some elon =>
            have hred : buildSpotsGo dist il (e :: rest) seen =
                { name := name, label := tagLabel e.tags,
                  distance := dist elat elon,
                  score := max (scoreSpot il (tagLabel e.tags) (dist elat elon)) 0 } ::
                  buildSpotsGo dist il rest (name :: seen) := by
              simp [buildSpotsGo, hn, hseen, hla, hlo]
            rw [hred]
            have hrec := ih (name :: seen)
            constructor
            · intro s hs
              rcases List.mem_cons.mp hs with rfl | hs
              · exact hseen
              · have := hrec.1 s hs
                intro hcon
                exact this (List.mem_cons_of_mem _ hcon)
            · rw [List.map_cons, List.nodup_cons]
              refine ⟨?_, hrec.2⟩
              intro hcon
              rcases List.mem_map.mp hcon with ⟨s, hs, hname⟩
              exact hrec.1 s hs (hname ▸ List.mem_cons_self _ _)

theorem buildSpotsGo_score (dist : ℚ → ℚ → ℚ) (il : String) :
    ∀ (elements : List OsmElement) (seen : List String) (s : Spot),
      s ∈ buildSpotsGo dist il elements seen →
      s.score = max (scoreSpot il s.label s.distance) 0 := by
  intro elements
  induction elements with
  | nil => intro seen s hs; simp [buildSpotsGo] at hs
  | cons e rest ih =>
    intro seen s hs
    cases hn : pyTruthyS (dictGetS e.tags "name") with
    | none =>
      rw [show buildSpotsGo dist il (e :: rest) seen =
        buildSpotsGo dist il rest seen by simp [buildSpotsGo, hn]] at hs
      exact ih seen s hs
    | some name =>
      by_cases hseen : name ∈ seen
      · rw [show buildSpotsGo dist il (e :: rest) seen =
          buildSpotsGo dist il rest seen by simp [buildSpotsGo, hn, hseen]] at hs
        exact ih seen s hs
      · cases hla : pyOrQ e.lat e.center_lat with
        | none =>
          rw [show buildSpotsGo dist il (e :: rest) seen =
            buildSpotsGo dist il rest seen by simp [buildSpotsGo, hn, hseen, hla]] at hs
          exact ih seen s hs
        | some elat =>
          cases hlo : pyOrQ e.lon e.center_lon with
          | none =>
            rw [show buildSpotsGo dist il (e :: rest) seen =
              buildSpotsGo dist il rest seen by
                simp [buildSpotsGo, hn, hseen, hla, hlo]] at hs
            exact ih seen s hs
          | some elon =>
            rw [show buildSpotsGo dist il (e :: rest) seen =
              { name := name, label := tagLabel e.tags,
                distance := dist elat elon,
                score := max (scoreSpot il (tagLabel e.tags) (dist elat elon)) 0 } ::
                buildSpotsGo dist il rest (name :: seen) by
                  simp [buildSpotsGo, hn, hseen, hla, hlo]] at hs
            rcases List.mem_cons.mp hs with rfl | hs
            · rfl
            · exact ih (name :: seen) s hs

/-- C4: the news filter applies, in order: (1) an item whose publish
date parsed is dropped exactly when that date differs from the target
day, while items with an absent or unparseable publish date pass the
date filter; (2) when interest keywords are present, only items with a
keyword hit in the lowercased title or description are kept; (3) the
surviving list is capped at 5 items.  The selection loop equals the
composition date-filter, then keyword-filter, then take 5, with the
keywords obtained by comma-splitting, trimming, lowercasing and
dropping empty tokens. -/
theorem news_filter_pipeline :
    (∀ (t : Day) (interests : String) (items : List NewsItem),
      newsSelect t (parseKeywords interests) items =
        ((items.filter fun it => !dateDrop t it).filter
          (fun it => (parseKeywords interests).isEmpty ||
            kwHit (parseKeywords interests) it)).take 5) ∧
    (∀ (t : Day) (it : NewsItem) (d : Day), it.pubDay = some d →
      (dateDrop t it = true ↔ d ≠ t)) ∧
    (∀ (t : Day) (it : NewsItem), it.pubDay = none → dateDrop t it = false) ∧
    (∀ (t : Day) (kws : List String) (items : List NewsItem),
      (newsSelect t kws items).length ≤ 5) := by
  refine ⟨?_, ?_, ?_, ?_⟩
  · intro t interests items
    exact newsSelect_eq t (parseKeywords interests) items
  · intro t it d hd
    simp [dateDrop, hd, bne_iff_ne]
  · intro t it hd
    simp [dateDrop, hd]
  · intro t kws items
    rw [newsSelect_eq]
    exact List.length_take_le 5 _

/-- Witness for C4: the item published on 2025-06-02 fails the date
test against the target 2025-06-01 even though its title matches the
keywords. -/
theorem news_filter_pipeline_witness :
    dateDrop exDayTarget exLateItem = true ↔ exDayAfter ≠ exDayTarget :=
  news_filter_pipeline.2.1 exDayTarget exLateItem exDayAfter rfl

/-- C9: news filtering is idempotent — running the selection a second
time over its own output, with the same target date and keywords,
returns that output unchanged. -/
theorem news_filter_idempotent (t : Day) (k : List String)
    (items : List NewsItem) :
    newsSelect t k (newsSelect t k items) = newsSelect t k items := by
  rw [newsSelect_eq t k items, newsSelect_eq]
  set A : NewsItem → Bool := fun it => !dateDrop t it with hA
  set B : NewsItem → Bool := fun it => k.isEmpty || kwHit k it with hB
  have hmem : ∀ it ∈ ((items.filter A).filter B).take 5,
      A it = true ∧ B it = true := by
    intro it hit
    have h2 := List.mem_of_mem_take hit
    have h3 := List.mem_filter.mp h2
    have h4 := List.mem_filter.mp h3.1
    exact ⟨h4.2, h3.2⟩
  rw [List.filter_eq_self.mpr (fun a ha => (hmem a ha).1)]
  rw [List.filter_eq_self.mpr (fun a ha => (hmem a ha).2)]
  rw [List.take_take]
  norm_num

/-- C7: when zero items survive filtering, `get_city_news` returns the
fallback message: an explicit "no date-matching headlines" notice
naming the location and target date, plus up to 3 titles from the
unfiltered item list (or "N/A" when there are none). -/
theorem news_zero_survivors_fallback (location : String) (t : Day)
    (interests : Option String) (items : List NewsItem)
    (age : NewsItem → String) (hloc : location ≠ "")
    (h : newsSelect t (parseKeywords (interests.getD "")) items = []) :
    get_city_news_pure location t interests items age =
      "No date-matching headlines found for " ++ location ++ " on " ++
        t.isoformat ++ ".\nSample current stories: " ++
        (if ((items.take 3).map (fun it => it.title)).isEmpty then "N/A"
         else String.intercalate ", " ((items.take 3).map fun it => it.title)) ++
        "." ∧
    ((items.take 3).map (fun it => it.title)).length ≤ 3 := by
  constructor
  · simp only [get_city_news_pure, if_neg hloc, h, List.map_nil,
      List.isEmpty_nil, if_true]
  · rw [List.length_map]
    exact List.length_take_le 3 items

/-- Witness for C7: a single item published the day after the target is
dropped, and the fallback message names its title. -/
theorem news_zero_survivors_fallback_witness :
    get_city_news_pure "Hyderabad" exDayTarget none [exLateItem]
        (fun _ => "recent") =
      "No date-matching headlines found for " ++ "Hyderabad" ++ " on " ++
        exDayTarget.isoformat ++ ".\nSample current stories: " ++
        (if (([exLateItem].take 3).map (fun it => it.title)).isEmpty then "N/A"
         else String.intercalate ", "
           (([exLateItem].take 3).map fun it => it.title)) ++ "." ∧
    (([exLateItem].take 3).map (fun it => it.title)).length ≤ 3 :=
  news_zero_survivors_fallback "Hyderabad" exDayTarget none [exLateItem]
    (fun _ => "recent") (by decide) (by decide)

/-- C5: for a non-empty hourly temperature (resp. humidity) series, the
midday temperature (resp. humidity snapshot) is the element at index
`length / 2` (floor division); an empty series renders as "N/A". -/
theorem weather_midpoint_selection (f : Forecast) :
    (f.temperature_2m = [] → middayTemp f = "N/A") ∧
    (f.relative_humidity_2m = [] → humiditySnapshot f = "N/A") ∧
    (∀ h : f.temperature_2m ≠ [],
      middayTemp f = qstr (f.temperature_2m.get
        ⟨f.temperature_2m.length / 2,
         Nat.div_lt_self (List.length_pos.mpr h) one_lt_two⟩) ++ "°C") ∧
    (∀ h : f.relative_humidity_2m ≠ [],
      humiditySnapshot f = qstr (f.relative_humidity_2m.get
        ⟨f.relative_humidity_2m.length / 2,
         Nat.div_lt_self (List.length_pos.mpr h) one_lt_two⟩) ++ "%") := by
  refine ⟨?_, ?_, ?_, ?_⟩
  · intro h; simp [middayTemp, h]
  · intro h; simp [humiditySnapshot, h]
  · intro h
    have hne : ¬ (f.temperature_2m.isEmpty = true) := by
      simpa [List.isEmpty_iff] using h
    rw [middayTemp, if_neg hne]
    congr 1
    congr 1
    rw [List.getD_eq_getElem _ _ (Nat.div_lt_self (List.length_pos.mpr h) one_lt_two)]
    simp
  · intro h
    have hne : ¬ (f.relative_humidity_2m.isEmpty = true) := by
      simpa [List.isEmpty_iff] using h
    rw [humiditySnapshot, if_neg hne]
    congr 1
    congr 1
    rw [List.getD_eq_getElem _ _ (Nat.div_lt_self (List.length_pos.mpr h) one_lt_two)]
    simp

/-- Witness for C5: with hourly temperature `[21, 22, 23]` the midday
temperature is the element at index `3 / 2 = 1`, i.e. 22 °C. -/
theorem weather_midpoint_selection_witness :
    middayTemp exForecastMid = qstr (exForecastMid.temperature_2m.get
      ⟨exForecastMid.temperature_2m.length / 2,
       Nat.div_lt_self (List.length_pos.mpr (by decide)) one_lt_two⟩) ++ "°C" :=
  (weather_midpoint_selection exForecastMid).2.2.1 (by decide)

/-- C6: for a non-empty hourly precipitation-probability series the
reported hourly peak is the maximum of that series, and it does not
depend on the daily `precipitation_probability_max` field; in
particular the hourly series `[10, 90, 20]` yields "90%" for either
daily value. -/
theorem weather_hourly_peak :
    (∀ f : Forecast, f.precipitation_probability ≠ [] →
      ∃ m : ℚ, precipRisk f = qstr m ++ "%" ∧
        m ∈ f.precipitation_probability ∧
        ∀ x ∈ f.precipitation_probability, x ≤ m) ∧
    (∀ (f : Forecast) (dmax : List ℚ),
      precipRisk { f with precipitation_probability_max := dmax } =
        precipRisk f) ∧
    precipRisk exForecastMid = "90%" ∧
    precipRisk exForecastAltDaily = "90%" := by
  refine ⟨?_, ?_, by decide, by decide⟩
  · intro f h
    rcases hp : f.precipitation_probability with _ | ⟨x, rest⟩
    · exact absurd hp h
    · refine ⟨rest.foldl max x, ?_, ?_, ?_⟩
      · rw [precipRisk, hp]
      · exact foldl_max_mem rest x
      · intro z hz
        rcases List.mem_cons.mp hz with rfl | hz
        · exact foldl_max_init_le rest z
        · exact foldl_max_le_of_mem rest x z hz
  · intro f dmax
    rfl

/-- Witness for C6: the hourly series `[10, 90, 20]` of the example
forecast yields a maximum of the series. -/
theorem weather_hourly_peak_witness :
    ∃ m : ℚ, precipRisk exForecastMid = qstr m ++ "%" ∧
      m ∈ exForecastMid.precipitation_probability ∧
      ∀ x ∈ exForecastMid.precipitation_probability, x ≤ m :=
  weather_hourly_peak.1 exForecastMid (by decide)

theorem buildSpots_cricket_example :
    buildSpots exDistCricket "cricket" [exElemStadium, exElemCafe] =
      [⟨"Gachibowli Stadium", "Stadium", 3, 1⟩,
       ⟨"Cafe Corner", "Restaurant", 5/2, 5/2⟩] := by
  simp +decide [buildSpots, buildSpotsGo, exElemStadium, exElemCafe, dictGetS,
    pyTruthyS, pyOrQ, tagLabel, POI_TAGS, exDistCricket, scoreSpot, strLower]
  norm_num

/-- C1: every venue's score is its distance reduced by the fixed
interest bonuses (-2 for "cricket" with a label containing "stadium",
-1.5 for "movie" with a label containing "cinema", -1 for
"game"/"gaming"/"mall" with the exact label "Mall"), floored at 0; in
particular a stadium 3.0 km away scores 1.0 under interest "cricket"
and ranks above a non-bonused venue 2.5 km away scoring 2.5. -/
theorem poi_score_formula :
    (∀ (il label : String) (d : ℚ),
      max (scoreSpot il label d) 0 =
        max 0 (d -
          (if strContains il "cricket" && strContains (strLower label) "stadium"
            then 2 else 0) -
          (if strContains il "movie" && strContains (strLower label) "cinema"
            then 3/2 else 0) -
          (if (strContains il "game" || strContains il "gaming" ||
              strContains il "mall") && label == "Mall"
            then 1 else 0))) ∧
    (∀ (dist : ℚ → ℚ → ℚ) (il : String) (elements : List OsmElement)
        (s : Spot), s ∈ buildSpots dist il elements →
      s.score = max (scoreSpot il s.label s.distance) 0) ∧
    scoreSpot "cricket" "Stadium" 3 = 1 ∧
    (sortSpots (buildSpots exDistCricket "cricket"
        [exElemStadium, exElemCafe])).map (fun s => (s.name, s.score)) =
      [("Gachibowli Stadium", 1), ("Cafe Corner", 5/2)] := by
  refine ⟨?_, ?_, ?_, ?_⟩
  · intro il label d
    by_cases hil : il = ""
    · subst hil
      rw [scoreSpot, if_pos rfl]
      norm_num [show strContains "" "cricket" = false from rfl,
        show strContains "" "movie" = false from rfl,
        show strContains "" "game" = false from rfl,
        show strContains "" "gaming" = false from rfl,
        show strContains "" "mall" = false from rfl,
        max_comm d 0]
    · rw [scoreSpot, if_neg hil]
      simp only []
      split_ifs <;> (rw [max_comm]; try norm_num)
  · intro dist il elements s hs
    exact buildSpotsGo_score dist il elements [] s hs
  · simp +decide [scoreSpot, strLower]
    norm_num
  · rw [buildSpots_cricket_example, sortSpots]
    norm_num [List.insertionSort, List.orderedInsert, spotLE]

/-- Witness for C1: the stadium spot produced by the example element
list carries the bonused, floored score. -/
theorem poi_score_formula_witness :
    exSpotStadium.score =
      max (scoreSpot "cricket" exSpotStadium.label exSpotStadium.distance) 0 :=
  poi_score_formula.2.1 exDistCricket "cricket" [exElemStadium, exElemCafe]
    exSpotStadium (by rw [buildSpots_cricket_example]; simp [exSpotStadium])

/-- C2: the venue output is sorted in non-decreasing score order, ties
keep the original first-seen order (stable sort), at most 7 venues are
rendered, and each is rendered as "name (label) · distance km away"
with one decimal place. -/
theorem poi_output_order :
    (∀ spots : List Spot, List.Sorted spotLE (sortSpots spots)) ∧
    (∀ (spots : List Spot) (q : ℚ),
      (sortSpots spots).filter (fun s => decide (s.score = q)) =
        spots.filter (fun s => decide (s.score = q))) ∧
    (∀ spots : List Spot, (spotLines spots).length ≤ 7) ∧
    (∀ spots : List Spot,
      spotLines spots = ((sortSpots spots).take 7).map renderSpot) ∧
    (∀ s : Spot, renderSpot s =
      "- " ++ s.name ++ " (" ++ s.label ++ ") · " ++ fmtOneDec s.distance ++
        " km away") := by
  refine ⟨?_, ?_, ?_, fun _ => rfl, fun _ => rfl⟩
  · intro spots
    exact List.sorted_insertionSort spotLE spots
  · intro spots q
    exact filter_sortSpots q spots
  · intro spots
    rw [spotLines, List.length_map]
    exact List.length_take_le 7 _

/-- Counterexample to C3 as stated: an element whose direct coordinates
are present (latitude 0, longitude 5, no nested center) is nonetheless
skipped, because Python's `or` treats the float `0.0` as falsy, so the
claim that an element is "skipped exactly when neither is present" fails
at direct latitude 0. -/
theorem poi_zero_coordinate_skipped :
    exEquatorElem.lat = some 0 ∧ exEquatorElem.lon = some 5 ∧
    exEquatorElem.center_lat = none ∧ exEquatorElem.center_lon = none ∧
    buildSpots (fun _ _ => 1) "" [exEquatorElem] = [] := by decide

/-- C3 (amended): an element is skipped when it has no (truthy) name or
its name was already seen (first occurrence wins); its coordinate is
resolved by Python `or` truthiness — the direct lat/lon is used only
when present and non-zero, else the nested center coordinate — and the
element is skipped exactly when the resolved latitude or longitude is
absent (in particular a direct coordinate equal to 0 with no center
counts as absent); a skipped element does not add its name to the seen
set, so it does not affect deduplication of later same-named elements;
the emitted names are duplicate-free. -/
theorem poi_loop_skip_and_dedup (dist : ℚ → ℚ → ℚ) (il : String) :
    (∀ (e : OsmElement) (rest : List OsmElement) (seen : List String),
      pyTruthyS (dictGetS e.tags "name") = none →
      buildSpotsGo dist il (e :: rest) seen = buildSpotsGo dist il rest seen) ∧
    (∀ (e : OsmElement) (rest : List OsmElement) (seen : List String)
        (name : String),
      pyTruthyS (dictGetS e.tags "name") = some name → name ∈ seen →
      buildSpotsGo dist il (e :: rest) seen = buildSpotsGo dist il rest seen) ∧
    (∀ (e : OsmElement) (rest : List OsmElement) (seen : List String)
        (name : String),
      pyTruthyS (dictGetS e.tags "name") = some name → name ∉ seen →
      (pyOrQ e.lat e.center_lat = none ∨ pyOrQ e.lon e.center_lon = none) →
      buildSpotsGo dist il (e :: rest) seen = buildSpotsGo dist il rest seen) ∧
    (∀ (e : OsmElement) (rest : List OsmElement) (seen : List String)
        (name : String) (elat elon : ℚ),
      pyTruthyS (dictGetS e.tags "name") = some name → name ∉ seen →
      pyOrQ e.lat e.center_lat = some elat →
      pyOrQ e.lon e.center_lon = some elon →
      buildSpotsGo dist il (e :: rest) seen =
        { name := name, label := tagLabel e.tags, distance := dist elat elon,
          score := max (scoreSpot il (tagLabel e.tags) (dist elat elon)) 0 } ::
          buildSpotsGo dist il rest (name :: seen)) ∧
    (∀ elements : List OsmElement,
      ((buildSpots dist il elements).map fun s => s.name).Nodup) := by
  refine ⟨?_, ?_, ?_, ?_, ?_⟩
  · intro e rest seen hn
    simp [buildSpotsGo, hn]
  · intro e rest seen name hn hseen
    simp [buildSpotsGo, hn, hseen]
  · intro e rest seen name hn hseen hc
    rcases hc with hc | hc
    · simp [buildSpotsGo, hn, hseen, hc]
    · cases hla : pyOrQ e.lat e.center_lat with
      | none => simp [buildSpotsGo, hn, hseen, hla]
      | some elat => simp [buildSpotsGo, hn, hseen, hla, hc]
  · intro e rest seen name elat elon hn hseen hla hlo
    simp [buildSpotsGo, hn, hseen, hla, hlo]
  · intro elements
    exact (buildSpotsGo_invariant dist il elements []).2

/-- Witness for the amended C3: the equator element is skipped without
touching the seen set. -/
theorem poi_loop_skip_and_dedup_witness :
    buildSpotsGo (fun _ _ => 1) "" [exEquatorElem] [] =
      buildSpotsGo (fun _ _ => 1) "" [] [] :=
  (poi_loop_skip_and_dedup (fun _ _ => 1) "").2.2.1 exEquatorElem [] []
    "Equator" (by decide) (by simp) (Or.inl (by decide))

/-- Counterexample to C8 as stated: the POI lookup's "unable to locate"
message contains no instruction to ask the user for clarification (the
weather lookup's message does). -/
theorem poi_unable_message_lacks_clarification :
    get_local_spots_pure none "Atlantis" none (fun _ _ => 0) [] =
      "Unable to locate coordinates for 'Atlantis'." ∧
    strContains (get_local_spots_pure none "Atlantis" none (fun _ _ => 0) [])
      "Ask the user" = false ∧
    strContains (get_weather_outlook_pure none "Atlantis" "" "" exForecastMid)
      "Ask the user" = true := by decide

/-- C8 (amended): for every empty or geocoder-unresolvable location both
lookups return (not raise) a descriptive "unable to locate" message
naming the location; the weather message additionally instructs the
caller to ask the user for a clearer location, while the POI message
carries no such instruction. -/
theorem unresolved_location_messages (location : String) (remote : Option Geo)
    (day_str timestamp : String) (f : Forecast) (interest : Option String)
    (dist : ℚ → ℚ → ℚ) (elements : List OsmElement)
    (h : lookupCoordinates location remote = none) :
    get_weather_outlook_pure (lookupCoordinates location remote) location
        day_str timestamp f =
      "Unable to locate coordinates for '" ++ location ++
        "'. Ask the user for a clearer location." ∧
    get_local_spots_pure (lookupCoordinates location remote) location interest
        dist elements =
      "Unable to locate coordinates for '" ++ location ++ "'." ∧
    lookupCoordinates "" remote = none := by
  rw [h]
  exact ⟨rfl, rfl, by simp [lookupCoordinates]⟩

/-- Witness for the amended C8: a location the geocoder cannot resolve
produces both messages. -/
theorem unresolved_location_messages_witness :
    get_weather_outlook_pure (lookupCoordinates "Atlantis" none) "Atlantis"
        "2025-06-01" "now" exForecastMid =
      "Unable to locate coordinates for '" ++ "Atlantis" ++
        "'. Ask the user for a clearer location." ∧
    get_local_spots_pure (lookupCoordinates "Atlantis" none) "Atlantis" none
        (fun _ _ => 0) [] =
      "Unable to locate coordinates for '" ++ "Atlantis" ++ "'." ∧
    lookupCoordinates "" none = none :=
  unresolved_location_messages "Atlantis" none "2025-06-01" "now" exForecastMid
    none (fun _ _ => 0) [] (by decide)

/-- C10: `plan_day_workflow` fails with a `ValueError` — modelled as an
`Except.error`, distinct from the descriptive-string returns of the
tools — whenever the user data has no non-empty "location" value, or
(that value being present) the plan date is empty; in either case the
result does not depend on the agent pipeline, which is therefore never
consulted. -/
theorem workflow_input_validation (user_data : List (String × String))
    (plan_date : String) (c a : Option String)
    (ag ag2 : Unit → String × String × String × String) :
    ((dictGetS user_data "location").getD "" = "" →
      plan_day_workflow user_data plan_date c a ag =
        Except.error PlanInputError.locationRequired ∧
      plan_day_workflow user_data plan_date c a ag =
        plan_day_workflow user_data plan_date c a ag2) ∧
    ((dictGetS user_data "location").getD "" ≠ "" → plan_date = "" →
      plan_day_workflow user_data plan_date c a ag =
        Except.error PlanInputError.planDateRequired ∧
      plan_day_workflow user_data plan_date c a ag =
        plan_day_workflow user_data plan_date c a ag2) := by
  constructor
  · intro h
    constructor <;> simp [plan_day_workflow, h]
  · intro h hd
    constructor <;> simp [plan_day_workflow, h, hd]

/-- Witness for C10: user data without a location is rejected before the
agent pipeline runs. -/
theorem workflow_input_validation_witness :
    plan_day_workflow [("name", "Asha")] "2025-06-01" none none exAgentsRun =
      Except.error PlanInputError.locationRequired ∧
    plan_day_workflow [("name", "Asha")] "2025-06-01" none none exAgentsRun =
      plan_day_workflow [("name", "Asha")] "2025-06-01" none none
        (fun _ => ("a", "b", "c", "d")) :=
  (workflow_input_validation [("name", "Asha")] "2025-06-01" none none
    exAgentsRun (fun _ => ("a", "b", "c", "d"))).1 (by decide)
